import Mathlib

/-!
# Verification of the SAMES token-launch program

Shallow embedding of the SAMES launch program (programs/sames/src):
the bonding-curve math (`state.rs`), the launch / buyer-record data model
(`state.rs`), the instruction handlers (`lib.rs`) and the transfer hook
(`hook.rs`).

Machine integers are embedded as `Nat` (timestamps as `Int`); every Rust
checked operation (`checked_mul`, `checked_add`, `checked_div`) is an
`Option`-valued guard against the corresponding width bound, and a plain
Rust arithmetic operation that can panic (overflow in `isqrt_u128`,
division by zero) is likewise modelled as `none` (a panic never returns a
value, so conflating it with `None` is sound for claims of the form
"returns Some").  External collaborators (SOL transfer, token mint/burn,
PDA addressing) are out of scope per the spec; handlers return the amounts
they would move, and an `Except.error` result models the Anchor behaviour
that a failed instruction commits no state change.
-/

namespace Sames

/-- `u64::MAX`. -/
def U64MAX : Nat := 18446744073709551615

/-- `u32::MAX` (bound of `buyer_count`). -/
def U32MAX : Nat := 4294967295

/-- `u128::MAX`. -/
def U128MAX : Nat := 340282366920938463463374607431768211455

/-- `i64::MAX` (timestamps are `i64`). -/
def I64MAX : Int := 9223372036854775807

/-- The 1e9 fixed-point scale used by the curve (`slope_scaled` is slope × 1e9). -/
def B9 : Nat := 1000000000

/-- `u128::checked_mul`. -/
def cmul (a b : Nat) : Option Nat :=
  if a * b ≤ U128MAX then some (a * b) else none

/-- `u128::checked_add`. -/
def cadd (a b : Nat) : Option Nat :=
  if a + b ≤ U128MAX then some (a + b) else none

/-- `u128::checked_div` (none exactly on a zero divisor). -/
def cdiv (a b : Nat) : Option Nat :=
  if b = 0 then none else some (a / b)

/-- `u64::checked_mul`. -/
def cmul64 (a b : Nat) : Option Nat :=
  if a * b ≤ U64MAX then some (a * b) else none

/-- `u64::checked_add`. -/
def cadd64 (a b : Nat) : Option Nat :=
  if a + b ≤ U64MAX then some (a + b) else none

/-- `u64::checked_div`. -/
def cdiv64 (a b : Nat) : Option Nat :=
  if b = 0 then none else some (a / b)

/-- `u32::checked_add` (for `buyer_count`). -/
def cadd32 (a b : Nat) : Option Nat :=
  if a + b ≤ U32MAX then some (a + b) else none

/-- `u64::saturating_add`. -/
def satAdd64 (a b : Nat) : Nat := min (a + b) U64MAX

/-- `u128::saturating_add`. -/
def satAdd128 (a b : Nat) : Nat := min (a + b) U128MAX

-- ─────────────────────────────────────────────────────────────────────────
-- Bonding curve math (state.rs, lines 34–123)
-- ─────────────────────────────────────────────────────────────────────────

/-- The loop of `isqrt_u128` (state.rs:114-123).  One call is one iteration of
`while y < x { x = y; y = (x + n / x) / 2 }`.  The two `none` branches mark
the executions on which the Rust code panics: `n / x` with `x = 0`
(division by zero, both debug and release), and `x + n / x` exceeding
`u128::MAX` (overflow panic in debug; in release the wrapped value feeds a
division by zero one step later).  The iteration variable `x` strictly
decreases, which is exactly the termination measure. -/
def isqrt_go (n x y : Nat) : Option Nat :=
  if y < x then
    if y = 0 then none
    else if U128MAX < y + n / y then none
    else isqrt_go n y ((y + n / y) / 2)
  else some x
termination_by x
decreasing_by exact ‹y < x›

/-- `isqrt_u128` (state.rs:114-123): Newton integer square root on `u128`.
`x` starts at `n` and `y` at `(x + 1) / 2`; the first `none` guard is the
overflow of `x + 1` at `n = u128::MAX`. -/
def isqrt_u128 (n : Nat) : Option Nat :=
  if n = 0 then some 0
  else if U128MAX < n + 1 then none
  else isqrt_go n n ((n + 1) / 2)

/-- `bonding_curve_cost` (state.rs:34-52):
`cost = base_price·amount + slope_scaled·amount·(2·tokens_sold + amount) / (2·1e9)`,
every multiplication checked in `u128`, the total re-checked against `u64`. -/
def bonding_curve_cost (base_price slope_scaled tokens_sold amount : Nat) :
    Option Nat :=
  (cmul base_price amount).bind fun base_cost =>
  ((cmul 2 tokens_sold).bind fun ts2 => cadd ts2 amount).bind
    fun two_sold_plus_amount =>
  ((cmul slope_scaled amount).bind fun sa =>
    (cmul sa two_sold_plus_amount).bind fun sat =>
    cdiv sat 2000000000).bind fun slope_cost =>
  (cadd base_cost slope_cost).bind fun total =>
  if U64MAX < total then none else some total

/-- `bonding_curve_tokens_for_sol` (state.rs:56-101): inverse of the cost
integral by the quadratic formula
`x = (sqrt(b² + 2·slope·sol/1e9) − b)·1e9 / slope` with
`b = base_price + slope·tokens_sold/1e9`; flat-price division when
`slope_scaled = 0`; returns 0 when the discriminant root does not clear `b`. -/
def bonding_curve_tokens_for_sol (base_price slope_scaled tokens_sold
    sol_amount : Nat) : Option Nat :=
  if slope_scaled = 0 then
    cdiv sol_amount base_price
  else
    ((cmul slope_scaled tokens_sold).bind fun st =>
      (cdiv st B9).bind fun std =>
      cadd base_price std).bind fun b =>
    (cmul b b).bind fun b_squared =>
    ((cmul 2 slope_scaled).bind fun a2 =>
      (cmul a2 sol_amount).bind fun a2c =>
      cdiv a2c B9).bind fun four_ac =>
    (cadd b_squared four_ac).bind fun discriminant =>
    (isqrt_u128 discriminant).bind fun sqrt_disc =>
    if sqrt_disc ≤ b then some 0
    else
      (cmul (sqrt_disc - b) B9).bind fun numerator =>
      (cdiv numerator slope_scaled).bind fun result =>
      if U64MAX < result then none else some result

/-- `bonding_curve_price` (state.rs:104-111): spot price
`base_price + slope·tokens_sold/1e9`, slope component defaulting to 0 on
`u128` overflow, the sum saturating and then clamped to `u64::MAX`. -/
def bonding_curve_price (base_price slope_scaled tokens_sold : Nat) : Nat :=
  let slope_component := (((cmul slope_scaled tokens_sold).bind fun v =>
    cdiv v B9)).getD 0
  let price := satAdd128 base_price slope_component
  if U64MAX < price then U64MAX else price

lemma sqrt_le_newton (n x : Nat) (hx : 1 ≤ x) :
    Nat.sqrt n ≤ (x + n / x) / 2 := by
  set s := Nat.sqrt n with hs
  rcases Nat.eq_zero_or_pos s with h0 | hpos
  · simp [h0]
  have key : 2 * s ≤ x + n / x := by
    by_contra hlt
    push_neg at hlt
    have h1 : s * s ≤ n := Nat.sqrt_le n
    have h2 : s * s / x ≤ n / x := Nat.div_le_div_right h1
    have h3 : s * s < x * (s * s / x) + x := by
      have := Nat.div_add_mod (s * s) x
      have hmod : s * s % x < x := Nat.mod_lt _ hx
      omega
    have h4 : 2 * s * x ≤ x * x + s * s := by nlinarith [two_mul_le_add_sq x s]
    have h5 : x * (x + n / x + 1) ≤ x * (2 * s) := Nat.mul_le_mul_left x (by omega)
    have h6 : x * (s * s / x) ≤ x * (n / x) := Nat.mul_le_mul_left x h2
    have hexp : x * (x + n / x + 1) = x * x + x * (n / x) + x := by ring
    nlinarith
  calc s = 2 * s / 2 := by omega
  _ ≤ (x + n / x) / 2 := Nat.div_le_div_right key

lemma sqrt_le_u64 (n : Nat) (h : n + 1 ≤ U128MAX) :
    Nat.sqrt n ≤ 18446744073709551615 := by
  by_contra hc
  push_neg at hc
  have h1 : 18446744073709551616 * 18446744073709551616 ≤ Nat.sqrt n * Nat.sqrt n :=
    Nat.mul_le_mul hc hc
  have h2 : Nat.sqrt n * Nat.sqrt n ≤ n := Nat.sqrt_le n
  simp only [U128MAX] at h
  omega

lemma div_sqrt_le (n : Nat) (hn : 1 ≤ n) :
    n / Nat.sqrt n ≤ Nat.sqrt n + 2 := by
  have hs : 0 < Nat.sqrt n := Nat.sqrt_pos.mpr hn
  have h1 : n < (Nat.sqrt n + 1) * (Nat.sqrt n + 1) := Nat.lt_succ_sqrt n
  have h2 : n ≤ Nat.sqrt n * Nat.sqrt n + 2 * Nat.sqrt n := by nlinarith
  calc n / Nat.sqrt n ≤ (Nat.sqrt n * Nat.sqrt n + 2 * Nat.sqrt n) / Nat.sqrt n :=
        Nat.div_le_div_right h2
  _ = Nat.sqrt n + 2 := by
        rw [show Nat.sqrt n * Nat.sqrt n + 2 * Nat.sqrt n
              = (Nat.sqrt n + 2) * Nat.sqrt n by ring]
        exact Nat.mul_div_cancel _ hs

lemma isqrt_go_correct (n : Nat) (hn : 1 ≤ n) (hmax : n + 1 ≤ U128MAX) :
    ∀ x, Nat.sqrt n ≤ x → 1 ≤ x → (x = n ∨ x ≤ (n + 1) / 2) →
      isqrt_go n x ((x + n / x) / 2) = some (Nat.sqrt n) := by
  intro x
  induction x using Nat.strong_induction_on with
  | _ x ih =>
    intro hsx hx1 hxb
    rw [isqrt_go]
    by_cases hlt : (x + n / x) / 2 < x
    · rw [if_pos hlt]
      have hsy : Nat.sqrt n ≤ (x + n / x) / 2 := sqrt_le_newton n x hx1
      have hy1 : 1 ≤ (x + n / x) / 2 := le_trans (Nat.sqrt_pos.mpr hn) hsy
      have hyb : (x + n / x) / 2 ≤ (n + 1) / 2 := by
        rcases hxb with heq | hxle
        · rw [heq, Nat.div_self hn]
        · have hxn : x + n / x ≤ n + 1 := by
            have : n / x ≤ n := Nat.div_le_self n x
            omega
          omega
      have hdiv : n / ((x + n / x) / 2) ≤ Nat.sqrt n + 2 :=
        le_trans (Nat.div_le_div_left hsy (Nat.sqrt_pos.mpr hn)) (div_sqrt_le n hn)
      have hover : ¬ (U128MAX < (x + n / x) / 2 + n / ((x + n / x) / 2)) := by
        push_neg
        have h64 : Nat.sqrt n ≤ 18446744073709551615 := sqrt_le_u64 n hmax
        have hhalf : (n + 1) / 2 ≤ 170141183460469231731687303715884105727 := by
          simp only [U128MAX] at hmax
          omega
        simp only [U128MAX]
        omega
      rw [if_neg (by omega : ¬ (x + n / x) / 2 = 0), if_neg hover]
      exact ih _ hlt hsy hy1 (Or.inr hyb)
    · rw [if_neg hlt]
      push_neg at hlt
      have h2x : x * 2 ≤ x + n / x := (Nat.le_div_iff_mul_le (by norm_num)).mp hlt
      have hxn : x ≤ n / x := by omega
      have hxx : x * x ≤ n := (Nat.le_div_iff_mul_le hx1).mp hxn
      have hle : x ≤ Nat.sqrt n := Nat.le_sqrt.mpr hxx
      have : x = Nat.sqrt n := le_antisymm hle hsx
      simp [this]

theorem isqrt_u128_eq_sqrt (n : Nat) (h : n + 1 ≤ U128MAX) :
    isqrt_u128 n = some (Nat.sqrt n) := by
  unfold isqrt_u128
  rcases Nat.eq_zero_or_pos n with rfl | hn
  · simp
  rw [if_neg (by omega), if_neg (by omega)]
  have hdn : n / n = 1 := Nat.div_self hn
  have hgo := isqrt_go_correct n hn h n (Nat.sqrt_le_self n) hn (Or.inl rfl)
  rw [hdn] at hgo
  exact hgo

theorem isqrt_u128_some {n s : Nat} (h : isqrt_u128 n = some s) :
    s = Nat.sqrt n := by
  by_cases hm : n + 1 ≤ U128MAX
  · rw [isqrt_u128_eq_sqrt n hm] at h
    exact (Option.some_inj.mp h).symm
  · exfalso
    push_neg at hm
    unfold isqrt_u128 at h
    rw [if_neg (by simp only [U128MAX] at hm ⊢; omega), if_pos hm] at h
    exact Option.noConfusion h

-- ─────────────────────────────────────────────────────────────────────────
-- Data model (state.rs, lines 7–17 and 129–309)
-- ─────────────────────────────────────────────────────────────────────────

/-- `LaunchStatus` (state.rs:8-17). -/
inductive LaunchStatus where
  | Presale
  | BondingCurve
  | Graduated
  | Closed
deriving DecidableEq, Repr

/-- `SamesError` (errors.rs). -/
inductive SamesError where
  | PresaleNotStarted
  | PresaleEnded
  | PresaleStillActive
  | AlreadyFinalized
  | NotFinalized
  | ZeroDeposit
  | MathOverflow
  | InsufficientBalance
  | ZeroSellAmount
  | SellBelowEntry
  | NoBuyerRecord
  | HookSellBelowEntry
  | HookPriceDerivationFailed
  | UnauthorizedCreator
  | InvalidMint
  | InvalidMarket
  | ZeroSupply
  | ZeroPrice
  | NameTooLong
  | SymbolTooLong
  | NotBondingCurve
  | NotReadyToGraduate
deriving DecidableEq, Repr

/-- `LaunchPool` (state.rs:131-186).  Pubkeys are abstracted to `Nat`;
the PDA bump seeds and the `_reserved` padding are storage mechanics with
no semantic content and are not part of the state model. -/
structure LaunchPool where
  creator : Nat
  mint : Nat
  token_name : String
  token_symbol : String
  total_supply : Nat
  price_lamports : Nat
  slope_scaled : Nat
  tokens_sold_curve : Nat
  curve_sol_collected : Nat
  start_time : Int
  end_time : Int
  total_sol_collected : Nat
  buyer_count : Nat
  graduation_threshold : Nat
  status : LaunchStatus
deriving DecidableEq, Repr

/-- `LaunchPool::is_presale_active` (state.rs:209-211). -/
def LaunchPool.is_presale_active (p : LaunchPool) (now : Int) : Bool :=
  p.status = LaunchStatus.Presale && p.start_time ≤ now && now < p.end_time

/-- `LaunchPool::is_presale_over` (state.rs:213-215). -/
def LaunchPool.is_presale_over (p : LaunchPool) (now : Int) : Bool :=
  p.end_time ≤ now

/-- `LaunchPool::should_graduate` (state.rs:224-228). -/
def LaunchPool.should_graduate (p : LaunchPool) : Bool :=
  p.status = LaunchStatus.BondingCurve
    && p.graduation_threshold ≤ p.curve_sol_collected

/-- `BuyerRecord` (state.rs:236-268), same abstractions as `LaunchPool`. -/
structure BuyerRecord where
  launch_pool : Nat
  buyer : Nat
  sol_deposited : Nat
  entry_price : Nat
  tokens_allocated : Nat
  tokens_sold : Nat
  curve_sol_spent : Nat
  curve_tokens_bought : Nat
deriving DecidableEq, Repr

/-- `BuyerRecord::average_entry_price` (state.rs:284-290). -/
def BuyerRecord.average_entry_price (r : BuyerRecord) : Nat :=
  let total_sol := satAdd64 r.sol_deposited r.curve_sol_spent
  let total_tokens := satAdd64 r.tokens_allocated r.curve_tokens_bought
  if total_tokens = 0 then 0
  else total_sol * 1000000000 / total_tokens / 1000000000

/-- `MarketRegistry` (state.rs:299-309). -/
structure MarketRegistry where
  launch_pool : Nat
  authority : Nat
  market_accounts : List Nat
deriving DecidableEq, Repr

/-- `MarketRegistry::MAX_MARKETS`. -/
def MarketRegistry.MAX_MARKETS : Nat := 16

-- ─────────────────────────────────────────────────────────────────────────
-- Program constants (lib.rs, lines 15–26)
-- ─────────────────────────────────────────────────────────────────────────

/-- `PRESALE_DURATION` (lib.rs:16). -/
def PRESALE_DURATION : Int := 30

/-- `DEFAULT_GRADUATION_THRESHOLD` (lib.rs:19): 69 SOL. -/
def DEFAULT_GRADUATION_THRESHOLD : Nat := 69000000000

/-- `DEFAULT_SLOPE` (lib.rs:23). -/
def DEFAULT_SLOPE : Nat := 100

/-- `PLATFORM_FEE_BPS` (lib.rs:26): 1% in basis points. -/
def PLATFORM_FEE_BPS : Nat := 100

-- ─────────────────────────────────────────────────────────────────────────
-- Instruction handlers (lib.rs, lines 35–405)
-- ─────────────────────────────────────────────────────────────────────────

/-- `create_launch` (lib.rs:35-80).  `creator` and `mint` are the signer and
mint account keys; `now` is `Clock::get()?.unix_timestamp`.  Returns the
freshly initialised pool and market registry. -/
def create_launch (token_name token_symbol : String)
    (total_supply price_lamports : Nat) (creator mint pool_key : Nat)
    (now : Int) : Except SamesError (LaunchPool × MarketRegistry) :=
  if 32 < token_name.utf8ByteSize then .error .NameTooLong
  else if 10 < token_symbol.utf8ByteSize then .error .SymbolTooLong
  else if total_supply = 0 then .error .ZeroSupply
  else if price_lamports = 0 then .error .ZeroPrice
  else if I64MAX < now + PRESALE_DURATION then .error .MathOverflow
  else
    .ok ({ creator := creator
           mint := mint
           token_name := token_name
           token_symbol := token_symbol
           total_supply := total_supply
           price_lamports := price_lamports
           slope_scaled := DEFAULT_SLOPE
           tokens_sold_curve := 0
           curve_sol_collected := 0
           start_time := now
           end_time := now + PRESALE_DURATION
           total_sol_collected := 0
           buyer_count := 0
           graduation_threshold := DEFAULT_GRADUATION_THRESHOLD
           status := LaunchStatus.Presale },
         { launch_pool := pool_key
           authority := creator
           market_accounts := [] })

/-- `buy_presale` (lib.rs:85-130).  `record` is the (possibly freshly zeroed,
via `init_if_needed`) buyer record account; the SOL transfer to the vault is
the external custody collaborator and is represented by the accepted
`sol_amount`. -/
def buy_presale (pool : LaunchPool) (record : BuyerRecord)
    (buyer pool_key : Nat) (now : Int) (sol_amount : Nat) :
    Except SamesError (LaunchPool × BuyerRecord) :=
  if sol_amount = 0 then .error .ZeroDeposit
  else if now < pool.start_time then .error .PresaleNotStarted
  else if pool.end_time ≤ now then .error .PresaleEnded
  else if pool.status ≠ LaunchStatus.Presale then .error .AlreadyFinalized
  else
    match cadd64 pool.total_sol_collected sol_amount with
    | none => .error .MathOverflow
    | some total =>
      let pool := { pool with total_sol_collected := total }
      let isNew := record.sol_deposited = 0 ∧ record.curve_sol_spent = 0
      let initRec : Except SamesError (LaunchPool × BuyerRecord) :=
        if isNew then
          match cadd32 pool.buyer_count 1 with
          | none => .error .MathOverflow
          | some bc =>
            .ok ({ pool with buyer_count := bc },
                 { record with
                     launch_pool := pool_key
                     buyer := buyer
                     entry_price := pool.price_lamports
                     tokens_allocated := 0
                     tokens_sold := 0
                     curve_sol_spent := 0
                     curve_tokens_bought := 0 })
        else .ok (pool, record)
      initRec.bind fun pr =>
        match cadd64 pr.2.sol_deposited sol_amount with
        | none => .error .MathOverflow
        | some dep => .ok (pr.1, { pr.2 with sol_deposited := dep })

/-- `finalize_launch` (lib.rs:135-176).  Computes the participant allocation
`sol_deposited · total_supply / total_sol_collected` in `u128` and truncates
it with `as u64`; the mint CPI is external, so the handler returns the
updated record together with the minted amount.  The pool itself is not
mutated. -/
def finalize_launch (pool : LaunchPool) (record : BuyerRecord)
    (caller : Nat) (now : Int) : Except SamesError (BuyerRecord × Nat) :=
  if pool.creator ≠ caller then .error .UnauthorizedCreator
  else if ¬ (pool.is_presale_over now) then .error .PresaleStillActive
  else if pool.status ≠ LaunchStatus.Presale then .error .AlreadyFinalized
  else if record.sol_deposited = 0 then .error .ZeroDeposit
  else
    match cmul record.sol_deposited pool.total_supply with
    | none => .error .MathOverflow
    | some m =>
      match cdiv m pool.total_sol_collected with
      | none => .error .MathOverflow
      | some t128 =>
        let tokens := t128 % 18446744073709551616
        .ok ({ record with
                 tokens_allocated := tokens
                 entry_price := pool.price_lamports }, tokens)

/-- `start_bonding_curve` (lib.rs:181-195). -/
def start_bonding_curve (pool : LaunchPool) (caller : Nat) (now : Int) :
    Except SamesError LaunchPool :=
  if pool.creator ≠ caller then .error .UnauthorizedCreator
  else if pool.status ≠ LaunchStatus.Presale then .error .AlreadyFinalized
  else if ¬ (pool.is_presale_over now) then .error .PresaleStillActive
  else .ok { pool with status := LaunchStatus.BondingCurve }

/-- `buy_curve` (lib.rs:200-289).  The SOL transfer moves `cost` (not
`sol_amount`) to the vault and the mint CPI issues `tokens`; both are
external, so the handler returns them alongside the updated pool and
record. -/
def buy_curve (pool : LaunchPool) (record : BuyerRecord)
    (buyer pool_key : Nat) (sol_amount : Nat) :
    Except SamesError (LaunchPool × BuyerRecord × Nat × Nat) :=
  if sol_amount = 0 then .error .ZeroDeposit
  else if pool.status ≠ LaunchStatus.BondingCurve then .error .NotBondingCurve
  else
    match bonding_curve_tokens_for_sol pool.price_lamports pool.slope_scaled
        pool.tokens_sold_curve sol_amount with
    | none => .error .MathOverflow
    | some tokens =>
      if tokens = 0 then .error .ZeroDeposit
      else
        match bonding_curve_cost pool.price_lamports pool.slope_scaled
            pool.tokens_sold_curve tokens with
        | none => .error .MathOverflow
        | some cost =>
          if sol_amount < cost then .error .InsufficientBalance
          else
            match cadd64 pool.tokens_sold_curve tokens with
            | none => .error .MathOverflow
            | some tsc =>
              match cadd64 pool.curve_sol_collected cost with
              | none => .error .MathOverflow
              | some csc =>
                let pool' := { pool with
                                 tokens_sold_curve := tsc
                                 curve_sol_collected := csc }
                let isNew := record.sol_deposited = 0 ∧ record.curve_sol_spent = 0
                let step : Except SamesError (LaunchPool × BuyerRecord) :=
                  if isNew then
                    match cadd32 pool'.buyer_count 1 with
                    | none => .error .MathOverflow
                    | some bc =>
                      .ok ({ pool' with buyer_count := bc },
                           { record with
                               launch_pool := pool_key
                               buyer := buyer
                               tokens_allocated := 0
                               tokens_sold := 0 })
                  else .ok (pool', record)
                step.bind fun pr =>
                  match cadd64 pr.2.curve_sol_spent cost with
                  | none => .error .MathOverflow
                  | some spent =>
                    match cadd64 pr.2.curve_tokens_bought tokens with
                    | none => .error .MathOverflow
                    | some bought =>
                      let rec1 := { pr.2 with
                                      curve_sol_spent := spent
                                      curve_tokens_bought := bought }
                      let total_sol := satAdd64 rec1.sol_deposited rec1.curve_sol_spent
                      let total_tkns := satAdd64 rec1.tokens_allocated rec1.curve_tokens_bought
                      let rec2 := if 0 < total_tkns then
                          { rec1 with entry_price := total_sol / total_tkns }
                        else rec1
                      .ok (pr.1, rec2, cost, tokens)

/-- `sell_curve` (lib.rs:294-358).  The vault pays out `sol_return` and the
burn CPI destroys `token_amount`; both are external.  An `Except.error`
result commits no state change (failed Anchor instruction). -/
def sell_curve (pool : LaunchPool) (record : BuyerRecord)
    (token_amount : Nat) :
    Except SamesError (LaunchPool × BuyerRecord × Nat) :=
  if token_amount = 0 then .error .ZeroSellAmount
  else if pool.status ≠ LaunchStatus.BondingCurve then .error .NotBondingCurve
  else
    let total_tokens := satAdd64 record.tokens_allocated record.curve_tokens_bought
    let available := total_tokens - record.tokens_sold
    if available < token_amount then .error .InsufficientBalance
    else
      let current_price := bonding_curve_price pool.price_lamports
        pool.slope_scaled pool.tokens_sold_curve
      if current_price < record.entry_price then .error .SellBelowEntry
      else
        match bonding_curve_cost pool.price_lamports pool.slope_scaled
            (pool.tokens_sold_curve - token_amount) token_amount with
        | none => .error .MathOverflow
        | some sol_return_raw =>
          match cmul64 sol_return_raw PLATFORM_FEE_BPS with
          | none => .error .MathOverflow
          | some fee_num =>
            match cdiv64 fee_num 10000 with
            | none => .error .MathOverflow
            | some fee =>
              let sol_return := sol_return_raw - fee
              match cadd64 record.tokens_sold token_amount with
              | none => .error .MathOverflow
              | some sold =>
                .ok ({ pool with
                         tokens_sold_curve := pool.tokens_sold_curve - token_amount
                         curve_sol_collected := pool.curve_sol_collected - sol_return_raw },
                     { record with tokens_sold := sold },
                     sol_return)

/-- `graduate` (lib.rs:366-381). -/
def graduate (pool : LaunchPool) : Except SamesError LaunchPool :=
  if pool.status ≠ LaunchStatus.BondingCurve then .error .NotBondingCurve
  else if pool.curve_sol_collected < pool.graduation_threshold then
    .error .NotReadyToGraduate
  else .ok { pool with status := LaunchStatus.Graduated }

/-- `update_price` (lib.rs:386-393). -/
def update_price (pool : LaunchPool) (authority : Nat) (new_price : Nat) :
    Except SamesError LaunchPool :=
  if pool.creator ≠ authority then .error .UnauthorizedCreator
  else if new_price = 0 then .error .ZeroPrice
  else .ok { pool with price_lamports := new_price }

/-- `register_market` (lib.rs:398-405). -/
def register_market (registry : MarketRegistry) (authority : Nat)
    (market_account : Nat) : Except SamesError MarketRegistry :=
  if registry.authority ≠ authority then .error .UnauthorizedCreator
  else if MarketRegistry.MAX_MARKETS ≤ registry.market_accounts.length then
    .error .InvalidMarket
  else .ok { registry with
               market_accounts := registry.market_accounts ++ [market_account] }

-- ─────────────────────────────────────────────────────────────────────────
-- Transfer hook (hook.rs, lines 84–151)
-- ─────────────────────────────────────────────────────────────────────────

/-- The sender buyer-record account as seen by the hook: an `UncheckedAccount`
whose raw data has some byte length and either deserializes to a
`BuyerRecord` or does not (`BuyerRecord::try_deserialize` failure). -/
structure HookBuyerAccount where
  data_len : Nat
  decoded : Option BuyerRecord
deriving DecidableEq, Repr

/-- `hook::handler` (hook.rs:84-151): allow unless the launch is in
`BondingCurve`, the destination is a registered market, the sender record
deserializes, and the pool market price `price_lamports` is below the
sender entry price.  The branches follow the source exactly:
`data_is_empty` and `len < 8` allow; a deserialization failure is mapped to
`Err(NoBuyerRecord)`. -/
def hook_handler (pool : LaunchPool) (registry : MarketRegistry)
    (buyer_account : HookBuyerAccount) (destination : Nat) (amount : Nat) :
    Except SamesError Unit :=
  if pool.status ≠ LaunchStatus.BondingCurve then .ok ()
  else if ¬ (registry.market_accounts.contains destination) then .ok ()
  else if buyer_account.data_len = 0 then .ok ()
  else if buyer_account.data_len < 8 then .ok ()
  else
    match buyer_account.decoded with
    | none => .error .NoBuyerRecord
    | some buyer_record =>
      if pool.price_lamports < buyer_record.entry_price then
        .error .HookSellBelowEntry
      else .ok ()

-- ─────────────────────────────────────────────────────────────────────────
-- Claim C10
-- ─────────────────────────────────────────────────────────────────────────

/-- C10 counterexample: the spec example miscalculates the scaled slope
term.  `bonding_curve_price 1000 100 10000000` is `1001`, not `2000`:
`100·10_000_000/1e9 = 1`, not `1000`. -/
theorem C10_price_example_not_2000 :
    ¬ (bonding_curve_price 1000 100 10000000 = 2000) := by decide

/-- C10 (amended): with `slope_scaled = 100`, `base_price = 1000` and
`tokens_sold = 10_000_000`, the spot price equals the claimed formula
`1000 + 100·10_000_000/1e9`, whose value is `1001` (not `2000`). -/
theorem C10_price_example :
    bonding_curve_price 1000 100 10000000 = 1000 + 100 * 10000000 / 1000000000
      ∧ 1000 + 100 * 10000000 / 1000000000 = 1001 := by decide

-- ─────────────────────────────────────────────────────────────────────────
-- Claim C3
-- ─────────────────────────────────────────────────────────────────────────

/-- C3: the hook does NOT fail open on a buyer-record account whose data is
non-empty (at least the 8 discriminator bytes) but fails to deserialize:
`BuyerRecord::try_deserialize` failure is mapped to `Err(NoBuyerRecord)`
(hook.rs:123-124), contradicting both the spec's fail-open rule and the
source's own account-level comment "if it fails, transfer is allowed"
(hook.rs:64).  Evaluated at a concrete failing input: launch in
`BondingCurve`, destination `5` registered, record data 8 bytes long and
undecodable. -/
theorem C3_hook_decode_failure_fails_closed :
    hook_handler
      { creator := 1, mint := 2, token_name := "T", token_symbol := "T",
        total_supply := 1000000, price_lamports := 1000, slope_scaled := 100,
        tokens_sold_curve := 0, curve_sol_collected := 0, start_time := 0,
        end_time := 30, total_sol_collected := 0, buyer_count := 0,
        graduation_threshold := 69000000000, status := .BondingCurve }
      { launch_pool := 3, authority := 1, market_accounts := [5] }
      { data_len := 8, decoded := none } 5 10
      = .error .NoBuyerRecord := by rfl

-- ─────────────────────────────────────────────────────────────────────────
-- Claim C4
-- ─────────────────────────────────────────────────────────────────────────

/-- C4: `finalize_launch` is NOT idempotent per participant.  The only
`AlreadyFinalized` guard is on the launch-wide status (lib.rs:142), which
stays `Presale` until `start_bonding_curve`; nothing records that a
participant was already finalized.  Concretely: a pool past its presale
window with 10 lamports collected and a buyer who deposited all 10
finalizes to 1000 tokens, and an immediate second `finalize_launch` call
succeeds and mints the same 1000 tokens again instead of failing with
`AlreadyFinalized`. -/
theorem C4_finalize_twice_mints_twice :
    finalize_launch
      { creator := 1, mint := 2, token_name := "T", token_symbol := "T",
        total_supply := 1000, price_lamports := 7, slope_scaled := 100,
        tokens_sold_curve := 0, curve_sol_collected := 0, start_time := 0,
        end_time := 30, total_sol_collected := 10, buyer_count := 1,
        graduation_threshold := 69000000000, status := .Presale }
      { launch_pool := 3, buyer := 4, sol_deposited := 10, entry_price := 7,
        tokens_allocated := 0, tokens_sold := 0, curve_sol_spent := 0,
        curve_tokens_bought := 0 } 1 30
    = .ok ({ launch_pool := 3, buyer := 4, sol_deposited := 10,
             entry_price := 7, tokens_allocated := 1000, tokens_sold := 0,
             curve_sol_spent := 0, curve_tokens_bought := 0 }, 1000)
    ∧
    finalize_launch
      { creator := 1, mint := 2, token_name := "T", token_symbol := "T",
        total_supply := 1000, price_lamports := 7, slope_scaled := 100,
        tokens_sold_curve := 0, curve_sol_collected := 0, start_time := 0,
        end_time := 30, total_sol_collected := 10, buyer_count := 1,
        graduation_threshold := 69000000000, status := .Presale }
      { launch_pool := 3, buyer := 4, sol_deposited := 10, entry_price := 7,
        tokens_allocated := 1000, tokens_sold := 0, curve_sol_spent := 0,
        curve_tokens_bought := 0 } 1 30
    = .ok ({ launch_pool := 3, buyer := 4, sol_deposited := 10,
             entry_price := 7, tokens_allocated := 1000, tokens_sold := 0,
             curve_sol_spent := 0, curve_tokens_bought := 0 }, 1000) :=
  ⟨rfl, rfl⟩

-- ─────────────────────────────────────────────────────────────────────────
-- Claim C1
-- ─────────────────────────────────────────────────────────────────────────

/-- C1: in `BondingCurve` status, a sell of a positive amount within the
seller's available balance is rejected with `SellBelowEntry` whenever the
current spot price is strictly below the seller's entry price; the error
return commits no state change (the handler only produces updated state on
`ok`). -/
theorem C1_sell_below_entry_rejected
    (pool : LaunchPool) (record : BuyerRecord) (amt : Nat)
    (hstatus : pool.status = LaunchStatus.BondingCurve)
    (hwf : record.tokens_allocated + record.curve_tokens_bought ≤ U64MAX)
    (hpos : 0 < amt)
    (havail : amt ≤ record.tokens_allocated + record.curve_tokens_bought
        - record.tokens_sold)
    (hprice : bonding_curve_price pool.price_lamports pool.slope_scaled
        pool.tokens_sold_curve < record.entry_price) :
    sell_curve pool record amt = .error .SellBelowEntry := by
  have hsat : satAdd64 record.tokens_allocated record.curve_tokens_bought
      = record.tokens_allocated + record.curve_tokens_bought := by
    simp [satAdd64, hwf]
  unfold sell_curve
  rw [if_neg (by omega), if_neg (by simp [hstatus])]
  simp only [hsat]
  rw [if_neg (by omega), if_pos hprice]

/-- C1 witness: a concrete rejected sell (spot price 1000 below entry
price 1500, amount 50 of 100 available). -/
theorem C1_sell_below_entry_rejected_witness :
    ((({ creator := 1, mint := 2, token_name := "T", token_symbol := "T",
         total_supply := 1000000, price_lamports := 1000, slope_scaled := 100,
         tokens_sold_curve := 0, curve_sol_collected := 0, start_time := 0,
         end_time := 30, total_sol_collected := 0, buyer_count := 1,
         graduation_threshold := 69000000000,
         status := .BondingCurve } : LaunchPool)).status
        = LaunchStatus.BondingCurve)
    ∧ sell_curve
        { creator := 1, mint := 2, token_name := "T", token_symbol := "T",
          total_supply := 1000000, price_lamports := 1000, slope_scaled := 100,
          tokens_sold_curve := 0, curve_sol_collected := 0, start_time := 0,
          end_time := 30, total_sol_collected := 0, buyer_count := 1,
          graduation_threshold := 69000000000, status := .BondingCurve }
        { launch_pool := 3, buyer := 4, sol_deposited := 0, entry_price := 1500,
          tokens_allocated := 100, tokens_sold := 0, curve_sol_spent := 0,
          curve_tokens_bought := 0 } 50
      = .error .SellBelowEntry :=
  ⟨rfl, C1_sell_below_entry_rejected _ _ 50 rfl (by decide) (by decide)
      (by decide) (by decide)⟩

-- ─────────────────────────────────────────────────────────────────────────
-- Claim C2
-- ─────────────────────────────────────────────────────────────────────────

/-- C2 counterexample: the hook does not consult the bonding-curve spot
price.  With `price_lamports = 1000`, `slope_scaled = 100` and
`tokens_sold_curve = 10^10` the spot price is `2000`, at or above the
sender entry price `1500`, yet the transfer to the registered market `5`
is rejected with `HookSellBelowEntry` because the hook compares the raw
`price_lamports` field (hook.rs:130) instead of
`bonding_curve_price`. -/
theorem C2_hook_ignores_spot_price :
    bonding_curve_price 1000 100 10000000000 = 2000
    ∧ (1500 : Nat) ≤ 2000
    ∧ hook_handler
        { creator := 1, mint := 2, token_name := "T", token_symbol := "T",
          total_supply := 1000000, price_lamports := 1000, slope_scaled := 100,
          tokens_sold_curve := 10000000000, curve_sol_collected := 0,
          start_time := 0, end_time := 30, total_sol_collected := 0,
          buyer_count := 1, graduation_threshold := 69000000000,
          status := .BondingCurve }
        { launch_pool := 3, authority := 1, market_accounts := [5] }
        { data_len := 121,
          decoded := some { launch_pool := 3, buyer := 4, sol_deposited := 0,
                            entry_price := 1500, tokens_allocated := 100,
                            tokens_sold := 0, curve_sol_spent := 0,
                            curve_tokens_bought := 0 } } 5 10
      = .error .HookSellBelowEntry := ⟨by decide, by decide, by rfl⟩

/-- C2 (amended): for a `BondingCurve` launch, registered destination and a
sender record that deserializes, the hook allows the transfer iff the
pool's oracle-tracked market price `price_lamports` is at least the sender
`entry_price` (not the curve spot price), rejecting with
`HookSellBelowEntry` otherwise. -/
theorem C2_hook_compares_market_price
    (pool : LaunchPool) (registry : MarketRegistry) (acct : HookBuyerAccount)
    (dest amount : Nat) (r : BuyerRecord)
    (hstatus : pool.status = LaunchStatus.BondingCurve)
    (hdest : registry.market_accounts.contains dest = true)
    (hlen : 8 ≤ acct.data_len)
    (hdec : acct.decoded = some r) :
    hook_handler pool registry acct dest amount =
      if pool.price_lamports < r.entry_price then .error .HookSellBelowEntry
      else .ok () := by
  unfold hook_handler
  rw [if_neg (by simp [hstatus]),
      if_neg (by simp [List.mem_of_elem_eq_true hdest]),
      if_neg (by omega), if_neg (by omega), hdec]

/-- C2 witness: concrete allowed transfer under the amended statement
(market price 2000 at entry price 1500). -/
theorem C2_hook_compares_market_price_witness :
    hook_handler
      { creator := 1, mint := 2, token_name := "T", token_symbol := "T",
        total_supply := 1000000, price_lamports := 2000, slope_scaled := 100,
        tokens_sold_curve := 0, curve_sol_collected := 0, start_time := 0,
        end_time := 30, total_sol_collected := 0, buyer_count := 1,
        graduation_threshold := 69000000000, status := .BondingCurve }
      { launch_pool := 3, authority := 1, market_accounts := [5] }
      { data_len := 121,
        decoded := some { launch_pool := 3, buyer := 4, sol_deposited := 0,
                          entry_price := 1500, tokens_allocated := 100,
                          tokens_sold := 0, curve_sol_spent := 0,
                          curve_tokens_bought := 0 } } 5 10
    = .ok () := by
  rw [C2_hook_compares_market_price _ _ _ 5 10 _ rfl (by decide) (by decide) rfl]
  rfl

-- ─────────────────────────────────────────────────────────────────────────
-- Shared evaluation lemmas for curve buys
-- ─────────────────────────────────────────────────────────────────────────

/-- Newton square root of the discriminant `201` arising from a
1-lamport-base, slope-100 curve bought with 1 SOL. -/
lemma isqrt_u128_201 : isqrt_u128 201 = some 14 := by
  rw [isqrt_u128_eq_sqrt 201 (by decide)]
  rw [show Nat.sqrt 201 = 14 from (Nat.eq_sqrt.mpr (by decide)).symm]

set_option maxRecDepth 4000 in
/-- Buying 1 SOL on a fresh curve with `base_price = 1`, `slope_scaled = 100`
yields 130 million tokens. -/
lemma tfs_one_sol : bonding_curve_tokens_for_sol 1 100 0 1000000000
    = some 130000000 := by
  simp only [bonding_curve_tokens_for_sol, cmul, cadd, cdiv, B9, U128MAX, U64MAX]
  norm_num [isqrt_u128_201]

/-- Success-path characterisation of `buy_curve` for a fresh (zeroed) buyer
record: with every scrutinee supplied as a hypothesis, the handler takes
its `ok` branch and the resulting state is the source's sequence of
updates.  Used to evaluate `buy_curve` at concrete inputs (the quadratic
inverse is supplied as an equation, so no Newton iteration needs to be
reduced by the elaborator). -/
lemma buy_curve_ok_fresh (pool : LaunchPool) (record : BuyerRecord)
    (buyer pool_key sol_amount tokens cost : Nat)
    (h0 : sol_amount ≠ 0)
    (hst : pool.status = LaunchStatus.BondingCurve)
    (ht : bonding_curve_tokens_for_sol pool.price_lamports pool.slope_scaled
        pool.tokens_sold_curve sol_amount = some tokens)
    (htz : tokens ≠ 0)
    (hc : bonding_curve_cost pool.price_lamports pool.slope_scaled
        pool.tokens_sold_curve tokens = some cost)
    (hcs : cost ≤ sol_amount)
    (h1 : pool.tokens_sold_curve + tokens ≤ U64MAX)
    (h2 : pool.curve_sol_collected + cost ≤ U64MAX)
    (hnew0 : record.sol_deposited = 0)
    (hnew1 : record.curve_sol_spent = 0)
    (h3 : pool.buyer_count + 1 ≤ U32MAX)
    (h4 : cost ≤ U64MAX)
    (h5 : record.curve_tokens_bought + tokens ≤ U64MAX) :
    buy_curve pool record buyer pool_key sol_amount =
      .ok ({ pool with
               tokens_sold_curve := pool.tokens_sold_curve + tokens
               curve_sol_collected := pool.curve_sol_collected + cost
               buyer_count := pool.buyer_count + 1 },
           { record with
               launch_pool := pool_key
               buyer := buyer
               tokens_allocated := 0
               tokens_sold := 0
               curve_sol_spent := cost
               curve_tokens_bought := record.curve_tokens_bought + tokens
               entry_price :=
                 satAdd64 0 cost /
                   satAdd64 0 (record.curve_tokens_bought + tokens) },
           cost, tokens) := by
  have htotpos : 0 < satAdd64 0 (record.curve_tokens_bought + tokens) := by
    simp only [satAdd64]
    have : 0 < record.curve_tokens_bought + tokens := by omega
    simp only [U64MAX] at h5 ⊢
    omega
  unfold buy_curve
  rw [if_neg (by omega), if_neg (by simp [hst]), ht]
  simp only
  rw [if_neg htz, hc]
  simp only
  rw [if_neg (by omega)]
  simp only [cadd64, cadd32, if_pos h1, if_pos h2]
  rw [if_pos ⟨hnew0, hnew1⟩, if_pos h3]
  simp only [Except.bind]
  rw [hnew1]
  simp only [Nat.zero_add, if_pos h4, if_pos h5]
  rw [hnew0]
  simp only [if_pos htotpos]

-- ─────────────────────────────────────────────────────────────────────────
-- Claim C8
-- ─────────────────────────────────────────────────────────────────────────

/-- C8 counterexample: `buy_curve` does not collect the full input amount.
On a `BondingCurve` pool with `base_price = 1`, `slope_scaled = 100` and an
empty curve, an input of 1 SOL (`f = 1_000_000_000`) buys 130 million
tokens at `cost = 975_000_000 < f`; the SOL transfer moves `cost`
(lib.rs:224-233), and `curve_sol_collected`/`curve_sol_spent` increase by
`cost`, not by `f` — the excess `f − cost` never leaves the buyer. -/
theorem C8_overpayment_is_not_collected :
    buy_curve
      { creator := 1, mint := 2, token_name := "T", token_symbol := "T",
        total_supply := 1000000000000, price_lamports := 1, slope_scaled := 100,
        tokens_sold_curve := 0, curve_sol_collected := 0, start_time := 0,
        end_time := 30, total_sol_collected := 0, buyer_count := 0,
        graduation_threshold := 69000000000, status := .BondingCurve }
      { launch_pool := 3, buyer := 4, sol_deposited := 0, entry_price := 0,
        tokens_allocated := 0, tokens_sold := 0, curve_sol_spent := 0,
        curve_tokens_bought := 0 } 4 3 1000000000
    = .ok ({ creator := 1, mint := 2, token_name := "T", token_symbol := "T",
             total_supply := 1000000000000, price_lamports := 1,
             slope_scaled := 100, tokens_sold_curve := 130000000,
             curve_sol_collected := 975000000, start_time := 0,
             end_time := 30, total_sol_collected := 0, buyer_count := 1,
             graduation_threshold := 69000000000, status := .BondingCurve },
           { launch_pool := 3, buyer := 4, sol_deposited := 0,
             entry_price := 7, tokens_allocated := 0, tokens_sold := 0,
             curve_sol_spent := 975000000, curve_tokens_bought := 130000000 },
           975000000, 130000000)
    ∧ (975000000 : Nat) < 1000000000
    ∧ (975000000 : Nat) ≠ 1000000000 := by
  refine ⟨?_, by decide, by decide⟩
  exact buy_curve_ok_fresh _ _ 4 3 1000000000 130000000 975000000
    (by decide) rfl tfs_one_sol (by decide) (by decide) (by decide)
    (by decide) (by decide) rfl rfl (by decide) (by decide) (by decide)

-- ─────────────────────────────────────────────────────────────────────────
-- Claim C5
-- ─────────────────────────────────────────────────────────────────────────

/-- C5: the supply invariant is violated in a state reachable from launch
creation.  `buy_curve` never checks the remaining supply (lib.rs:200-289):
creating a launch with `total_supply = 10` and `price_lamports = 1`,
starting the bonding curve after the window, and buying with 1 SOL mints
130 million curve tokens, so `tokens_sold_curve > total_supply` and the
single buyer record alone has
`tokens_allocated + curve_tokens_bought > total_supply`. -/
theorem C5_supply_invariant_violated :
    create_launch "T" "T" 10 1 1 2 3 0
      = .ok ({ creator := 1, mint := 2, token_name := "T", token_symbol := "T",
               total_supply := 10, price_lamports := 1, slope_scaled := 100,
               tokens_sold_curve := 0, curve_sol_collected := 0,
               start_time := 0, end_time := 30, total_sol_collected := 0,
               buyer_count := 0, graduation_threshold := 69000000000,
               status := .Presale },
             { launch_pool := 3, authority := 1, market_accounts := [] })
    ∧ start_bonding_curve
        { creator := 1, mint := 2, token_name := "T", token_symbol := "T",
          total_supply := 10, price_lamports := 1, slope_scaled := 100,
          tokens_sold_curve := 0, curve_sol_collected := 0, start_time := 0,
          end_time := 30, total_sol_collected := 0, buyer_count := 0,
          graduation_threshold := 69000000000, status := .Presale } 1 30
      = .ok { creator := 1, mint := 2, token_name := "T", token_symbol := "T",
              total_supply := 10, price_lamports := 1, slope_scaled := 100,
              tokens_sold_curve := 0, curve_sol_collected := 0,
              start_time := 0, end_time := 30, total_sol_collected := 0,
              buyer_count := 0, graduation_threshold := 69000000000,
              status := .BondingCurve }
    ∧ buy_curve
        { creator := 1, mint := 2, token_name := "T", token_symbol := "T",
          total_supply := 10, price_lamports := 1, slope_scaled := 100,
          tokens_sold_curve := 0, curve_sol_collected := 0, start_time := 0,
          end_time := 30, total_sol_collected := 0, buyer_count := 0,
          graduation_threshold := 69000000000, status := .BondingCurve }
        { launch_pool := 0, buyer := 0, sol_deposited := 0, entry_price := 0,
          tokens_allocated := 0, tokens_sold := 0, curve_sol_spent := 0,
          curve_tokens_bought := 0 } 4 3 1000000000
      = .ok ({ creator := 1, mint := 2, token_name := "T", token_symbol := "T",
               total_supply := 10, price_lamports := 1, slope_scaled := 100,
               tokens_sold_curve := 130000000, curve_sol_collected := 975000000,
               start_time := 0, end_time := 30, total_sol_collected := 0,
               buyer_count := 1, graduation_threshold := 69000000000,
               status := .BondingCurve },
             { launch_pool := 3, buyer := 4, sol_deposited := 0,
               entry_price := 7, tokens_allocated := 0, tokens_sold := 0,
               curve_sol_spent := 975000000, curve_tokens_bought := 130000000 },
             975000000, 130000000)
    ∧ (10 : Nat) < 130000000
    ∧ (10 : Nat) < 0 + 130000000 := by
  refine ⟨rfl, rfl, ?_, by decide, by decide⟩
  exact buy_curve_ok_fresh _ _ 4 3 1000000000 130000000 975000000
    (by decide) rfl tfs_one_sol (by decide) (by decide) (by decide)
    (by decide) (by decide) rfl rfl (by decide) (by decide) (by decide)

/-- Inversion for `u64::checked_add`. -/
lemma cadd64_some {a b c : Nat} (h : cadd64 a b = some c) : c = a + b := by
  unfold cadd64 at h
  split_ifs at h
  exact (Option.some_inj.mp h).symm

/-- C8 (amended): every successful `buy_curve` call charges exactly the
computed curve cost of the tokens it mints: the transferred amount is
`bonding_curve_cost` at the pre-state, and both `curve_sol_collected` and
the buyer's `curve_sol_spent` increase by that cost — never by the
(possibly larger) input amount, whose excess stays with the buyer. -/
theorem C8_charged_equals_cost (pool : LaunchPool) (record : BuyerRecord)
    (buyer pool_key f : Nat) (pool' : LaunchPool) (rec' : BuyerRecord)
    (paid tokens : Nat)
    (h : buy_curve pool record buyer pool_key f
        = .ok (pool', rec', paid, tokens)) :
    bonding_curve_cost pool.price_lamports pool.slope_scaled
        pool.tokens_sold_curve tokens = some paid
    ∧ pool'.curve_sol_collected = pool.curve_sol_collected + paid
    ∧ rec'.curve_sol_spent = record.curve_sol_spent + paid := by
  unfold buy_curve at h
  split at h
  · exact Except.noConfusion h
  split at h
  · exact Except.noConfusion h
  split at h
  · exact Except.noConfusion h
  rename_i tokens0 htok
  split at h
  · exact Except.noConfusion h
  split at h
  · exact Except.noConfusion h
  rename_i cost0 hcost
  split at h
  · exact Except.noConfusion h
  split at h
  · exact Except.noConfusion h
  rename_i tsc htsc
  split at h
  · exact Except.noConfusion h
  rename_i csc hcsc
  simp only [Except.bind] at h
  split at h
  · exact Except.noConfusion h
  rename_i v hstep
  split at hstep
  -- fresh buyer record: `init_if_needed` path increments `buyer_count`
  · split at hstep
    · exact Except.noConfusion hstep
    rename_i bc hbc
    rw [Except.ok.injEq] at hstep
    subst hstep
    split at h
    · exact Except.noConfusion h
    rename_i spent hspent
    split at h
    · exact Except.noConfusion h
    rename_i bought hbought
    split at h <;>
    · simp only [Except.ok.injEq, Prod.mk.injEq] at h
      obtain ⟨hA, hB, hp, htk⟩ := h
      subst hA
      subst hB
      subst hp
      subst htk
      exact ⟨hcost, cadd64_some hcsc, cadd64_some hspent⟩
  -- existing buyer record
  · rw [Except.ok.injEq] at hstep
    subst hstep
    split at h
    · exact Except.noConfusion h
    rename_i spent hspent
    split at h
    · exact Except.noConfusion h
    rename_i bought hbought
    split at h <;>
    · simp only [Except.ok.injEq, Prod.mk.injEq] at h
      obtain ⟨hA, hB, hp, htk⟩ := h
      subst hA
      subst hB
      subst hp
      subst htk
      exact ⟨hcost, cadd64_some hcsc, cadd64_some hspent⟩

/-- C8 witness: the amended statement applied to a concrete successful
flat-curve buy (price 2, 7 lamports in, 3 tokens minted, 6 charged). -/
theorem C8_charged_equals_cost_witness :
    bonding_curve_cost 2 0 0 3 = some 6
    ∧ (6 : Nat) = 0 + 6
    ∧ (6 : Nat) = 0 + 6 :=
  C8_charged_equals_cost
    { creator := 1, mint := 2, token_name := "T", token_symbol := "T",
      total_supply := 1000000, price_lamports := 2, slope_scaled := 0,
      tokens_sold_curve := 0, curve_sol_collected := 0, start_time := 0,
      end_time := 30, total_sol_collected := 0, buyer_count := 0,
      graduation_threshold := 69000000000, status := .BondingCurve }
    { launch_pool := 3, buyer := 4, sol_deposited := 0, entry_price := 0,
      tokens_allocated := 0, tokens_sold := 0, curve_sol_spent := 0,
      curve_tokens_bought := 0 } 4 3 7
    { creator := 1, mint := 2, token_name := "T", token_symbol := "T",
      total_supply := 1000000, price_lamports := 2, slope_scaled := 0,
      tokens_sold_curve := 3, curve_sol_collected := 6, start_time := 0,
      end_time := 30, total_sol_collected := 0, buyer_count := 1,
      graduation_threshold := 69000000000, status := .BondingCurve }
    { launch_pool := 3, buyer := 4, sol_deposited := 0, entry_price := 2,
      tokens_allocated := 0, tokens_sold := 0, curve_sol_spent := 6,
      curve_tokens_bought := 3 } 6 3 rfl

-- ─────────────────────────────────────────────────────────────────────────
-- Extraction lemmas for the curve formulas
-- ─────────────────────────────────────────────────────────────────────────

/-- A successful `bonding_curve_cost` returns exactly the integral formula. -/
lemma bonding_curve_cost_some_eq {bp σ ts a c : Nat}
    (h : bonding_curve_cost bp σ ts a = some c) :
    c = bp * a + σ * a * (2 * ts + a) / 2000000000 := by
  unfold bonding_curve_cost at h
  simp only [cmul, cadd, cdiv, Option.bind_eq_some, Option.ite_none_right_eq_some,
    Option.ite_none_left_eq_some, Option.some.injEq] at h
  obtain ⟨a1, ⟨p1, rfl⟩, a2, ⟨a3, ⟨p2, rfl⟩, p3, rfl⟩, a4,
    ⟨a5, ⟨p4, rfl⟩, a6, ⟨p5, rfl⟩, p6, rfl⟩, a7, ⟨p7, rfl⟩, p8, rfl⟩ := h
  rfl

/-- A successful `bonding_curve_tokens_for_sol` with positive slope is the
quadratic-formula value computed from the integer square root of the
discriminant `b² + 2·slope·funds/1e9` with `b = base + slope·sold/1e9`. -/
lemma bonding_curve_tokens_for_sol_some_eq {bp σ ts f t : Nat} (hσ : σ ≠ 0)
    (h : bonding_curve_tokens_for_sol bp σ ts f = some t) :
    ∃ s, isqrt_u128 ((bp + σ * ts / B9) * (bp + σ * ts / B9)
          + 2 * σ * f / B9) = some s
      ∧ ((s ≤ bp + σ * ts / B9 ∧ t = 0)
         ∨ (bp + σ * ts / B9 < s
            ∧ t = (s - (bp + σ * ts / B9)) * B9 / σ)) := by
  unfold bonding_curve_tokens_for_sol at h
  rw [if_neg hσ] at h
  simp only [cmul, cadd, cdiv, Option.bind_eq_some, Option.ite_none_right_eq_some,
    Option.ite_none_left_eq_some, Option.some.injEq] at h
  obtain ⟨b', ⟨st, ⟨g1, rfl⟩, d2, ⟨g2, rfl⟩, g3, rfl⟩, bsq, ⟨g4, rfl⟩, fac,
    ⟨a2, ⟨g5, rfl⟩, a3, ⟨g6, rfl⟩, g7, rfl⟩, disc, ⟨g8, rfl⟩, s, hs, hrest⟩ := h
  refine ⟨s, hs, ?_⟩
  by_cases hsb : s ≤ bp + σ * ts / B9
  · rw [if_pos hsb] at hrest
    exact Or.inl ⟨hsb, by simpa using hrest.symm⟩
  · rw [if_neg hsb] at hrest
    simp only [Option.bind_eq_some, Option.ite_none_right_eq_some,
      Option.ite_none_left_eq_some, Option.some.injEq] at hrest
    obtain ⟨num, ⟨g9, rfl⟩, res, ⟨g10, rfl⟩, g11, rfl⟩ := hrest
    exact Or.inr ⟨by omega, rfl⟩

-- ─────────────────────────────────────────────────────────────────────────
-- Claim C6
-- ─────────────────────────────────────────────────────────────────────────

/-- Newton square root of the discriminant `21` arising in the C6
counterexample. -/
lemma isqrt_u128_21 : isqrt_u128 21 = some 4 := by
  rw [isqrt_u128_eq_sqrt 21 (by decide)]
  rw [show Nat.sqrt 21 = 4 from (Nat.eq_sqrt.mpr (by decide)).symm]

set_option maxRecDepth 4000 in
/-- Inverse evaluation for the C6 counterexample: 10 SOL on a curve with
`base_price = 1`, `slope_scaled = 1`, `tokens_sold = 999_999_999`. -/
lemma tfs_c6_input : bonding_curve_tokens_for_sol 1 1 999999999 10000000000
    = some 3000000000 := by
  simp only [bonding_curve_tokens_for_sol, cmul, cadd, cdiv, B9, U128MAX, U64MAX]
  norm_num [isqrt_u128_21]

/-- C6 counterexample: the inverse is not a floor of the cost.  With
`base_price = 1 > 0`, `slope_scaled = 1`, `tokens_sold = 999_999_999` the
truncation of `slope·sold/1e9` makes the quadratic coefficient `b`
underestimate the true marginal price by almost one lamport, so
`tokens_for_sol` hands out 3 billion tokens for 10 SOL while their curve
cost is `10_499_999_997 > 10_000_000_000` lamports. -/
theorem C6_cost_exceeds_funds :
    (0 : Nat) < 1
    ∧ bonding_curve_tokens_for_sol 1 1 999999999 10000000000
        = some 3000000000
    ∧ bonding_curve_cost 1 1 999999999 3000000000 = some 10499999997
    ∧ ¬ (10499999997 ≤ 10000000000) :=
  ⟨by decide, tfs_c6_input, by decide, by decide⟩

/-- C6 (amended): the cost of the tokens granted for `f` lamports never
exceeds `f + t` (strictly less than one lamport of overshoot per granted
token); the unamended bound `c ≤ f` fails in general because the quadratic
coefficient floors `slope·sold/1e9`. -/
theorem C6_cost_le_funds_plus_tokens (bp σ ts f t c : Nat) (hbp : 0 < bp)
    (ht : bonding_curve_tokens_for_sol bp σ ts f = some t)
    (hc : bonding_curve_cost bp σ ts t = some c) :
    c ≤ f + t := by
  have hcf := bonding_curve_cost_some_eq hc
  by_cases hσ : σ = 0
  · subst hσ
    unfold bonding_curve_tokens_for_sol at ht
    rw [if_pos rfl] at ht
    simp only [cdiv] at ht
    rw [if_neg (by omega)] at ht
    have htv : t = f / bp := by simpa using ht.symm
    have hble : bp * (f / bp) ≤ f := Nat.mul_div_le f bp
    simp only [Nat.zero_mul, Nat.zero_div, Nat.add_zero] at hcf
    subst htv
    rw [hcf]
    exact le_trans hble (Nat.le_add_right f _)
  · obtain ⟨s, hs, hcase⟩ := bonding_curve_tokens_for_sol_some_eq hσ ht
    have hσpos : 0 < σ := by omega
    set b := bp + σ * ts / B9 with hbdef
    rcases hcase with ⟨hsb, rfl⟩ | ⟨hbs, htv⟩
    · simp only [Nat.mul_zero, Nat.zero_mul, Nat.zero_div, Nat.add_zero,
        Nat.zero_add] at hcf
      omega
    · have hsq : s * s ≤ b * b + 2 * σ * f / B9 := by
        have hss := isqrt_u128_some hs
        subst hss
        exact Nat.sqrt_le _
      set k := σ * ts / B9 with hkdef
      set r := σ * ts % B9 with hrdef
      have hkr : B9 * k + r = σ * ts := Nat.div_add_mod (σ * ts) B9
      have hrB : r < B9 := Nat.mod_lt _ (by norm_num [B9])
      set u := s - b with hudef
      have hu1 : 1 ≤ u := by omega
      have hsbu : s = b + u := by omega
      have key1 : σ * t ≤ u * B9 := by
        rw [htv]
        exact Nat.mul_div_le (u * B9) σ
      have key2 : 2 * (b * u) + u * u ≤ 2 * σ * f / B9 := by
        have hexp : (b + u) * (b + u) = b * b + (2 * (b * u) + u * u) := by
          ring
        rw [hsbu, hexp] at hsq
        omega
      have key3 : (2 * σ * f / B9) * B9 ≤ 2 * σ * f := Nat.div_mul_le_self _ _
      have key4 : σ * (t * (2 * b + u)) ≤ σ * (2 * f) := by
        calc σ * (t * (2 * b + u)) = (σ * t) * (2 * b + u) := by ring
        _ ≤ (u * B9) * (2 * b + u) := Nat.mul_le_mul_right _ key1
        _ = B9 * (2 * (b * u) + u * u) := by ring
        _ ≤ B9 * (2 * σ * f / B9) := Nat.mul_le_mul_left _ key2
        _ ≤ 2 * σ * f := by rw [Nat.mul_comm]; exact key3
        _ = σ * (2 * f) := by ring
      have key5 : t * (2 * b + u) ≤ 2 * f :=
        Nat.le_of_mul_le_mul_left key4 hσpos
      have key6 : 2 * B9 * (σ * t * (2 * ts + t) / (2 * B9))
          ≤ σ * t * (2 * ts + t) := by
        rw [Nat.mul_comm]
        exact Nat.div_mul_le_self _ _
      have h7 : (σ * t) * t ≤ (u * B9) * t := Nat.mul_le_mul_right t key1
      have hX : σ * t * (2 * ts + t) = 2 * (t * (B9 * k + r)) + (σ * t) * t := by
        rw [hkr]; ring
      have htr : t * r ≤ t * B9 := Nat.mul_le_mul_left t (le_of_lt hrB)
      have hfin : 2 * B9 * c ≤ 2 * B9 * (f + t) := by
        have hc2B : (2000000000 : Nat) = 2 * B9 := by norm_num [B9]
        calc 2 * B9 * c
            = 2 * B9 * (bp * t) + 2 * B9 * (σ * t * (2 * ts + t) / (2 * B9)) := by
              rw [hcf, hc2B]; ring
        _ ≤ 2 * B9 * (bp * t) + (2 * (t * (B9 * k + r)) + (σ * t) * t) := by
              rw [← hX]; omega
        _ ≤ 2 * B9 * (bp * t) + (2 * (t * (B9 * k + r)) + (u * B9) * t) := by
              omega
        _ = B9 * (t * (2 * (bp + k) + u)) + 2 * (t * r) := by ring
        _ = B9 * (t * (2 * b + u)) + 2 * (t * r) := by rw [hbdef, hkdef]
        _ ≤ B9 * (2 * f) + 2 * (t * B9) := by
              have hk5 := Nat.mul_le_mul_left B9 key5
              omega
        _ = 2 * B9 * (f + t) := by ring
      exact Nat.le_of_mul_le_mul_left hfin (by norm_num [B9])

/-- C6 witness: a flat-price instance of the amended bound (2 lamports per
token, 7 lamports buys 3 tokens at cost 6 ≤ 7 + 3). -/
theorem C6_cost_le_funds_plus_tokens_witness :
    (0 : Nat) < 2
    ∧ bonding_curve_tokens_for_sol 2 0 0 7 = some 3
    ∧ bonding_curve_cost 2 0 0 3 = some 6
    ∧ (6 : Nat) ≤ 7 + 3 :=
  ⟨by decide, by decide, by decide,
   C6_cost_le_funds_plus_tokens 2 0 0 7 3 6 (by decide) (by decide) (by decide)⟩

-- ─────────────────────────────────────────────────────────────────────────
-- Claim C7
-- ─────────────────────────────────────────────────────────────────────────

/-- Newton square root of the degenerate discriminant `1`. -/
lemma isqrt_u128_1 : isqrt_u128 1 = some 1 := by
  rw [isqrt_u128_eq_sqrt 1 (by decide)]
  simp [Nat.sqrt_one]

set_option maxRecDepth 4000 in
/-- Inverse evaluation for the C7 counterexample: the 10-lamport cost of 10
tokens buys back 0 tokens, because the discriminant increment
`2·slope·funds/1e9` floors to zero for small amounts. -/
lemma tfs_c7_input : bonding_curve_tokens_for_sol 1 1 0 10 = some 0 := by
  simp only [bonding_curve_tokens_for_sol, cmul, cadd, cdiv, B9, U128MAX, U64MAX]
  norm_num [isqrt_u128_1]

/-- C7 counterexample: the round-trip is not within one unit.  With
`base_price = 1`, `slope_scaled = 1`, `tokens_sold = 0`, buying 10 tokens
costs 10 lamports, but `tokens_for_sol` on those 10 lamports returns 0 —
off by 10 from the original amount. -/
theorem C7_roundtrip_not_within_one :
    bonding_curve_cost 1 1 0 10 = some 10
    ∧ bonding_curve_tokens_for_sol 1 1 0 10 = some 0
    ∧ ¬ (Nat.dist 0 10 ≤ 1) :=
  ⟨by decide, tfs_c7_input, by decide⟩

/-- C7 (amended): the round-trip
`tokens_for_sol (cost amount) = amount` holds exactly on a flat curve
(`slope_scaled = 0`); with a positive slope the inverse can be off by far
more than one unit (it returns 0 whenever `2·slope·funds < 1e9`). -/
theorem C7_flat_roundtrip_exact (bp ts a c : Nat) (hbp : 0 < bp)
    (hc : bonding_curve_cost bp 0 ts a = some c) :
    bonding_curve_tokens_for_sol bp 0 ts c = some a := by
  have hcf := bonding_curve_cost_some_eq hc
  simp only [Nat.zero_mul, Nat.zero_div, Nat.add_zero] at hcf
  subst hcf
  unfold bonding_curve_tokens_for_sol
  rw [if_pos rfl]
  simp only [cdiv]
  rw [if_neg (by omega)]
  rw [Nat.mul_div_cancel_left a hbp]

/-- C7 witness: on the flat curve with price 5, the 35-lamport cost of 7
tokens buys back exactly 7 tokens. -/
theorem C7_flat_roundtrip_exact_witness :
    (0 : Nat) < 5
    ∧ bonding_curve_cost 5 0 3 7 = some 35
    ∧ bonding_curve_tokens_for_sol 5 0 3 35 = some 7 :=
  ⟨by decide, by decide, C7_flat_roundtrip_exact 5 3 7 35 (by decide) (by decide)⟩

-- ─────────────────────────────────────────────────────────────────────────
-- Claim C9
-- ─────────────────────────────────────────────────────────────────────────

/-- C9 counterexample: at `n = u128::MAX` the first Newton step `x + 1`
overflows `u128` (in release mode the wrapped value makes `x` zero and the
next `n / x` divides by zero), so `isqrt_u128` panics instead of returning
the floor square root; the embedding returns `none` on exactly the
panicking executions. -/
theorem C9_isqrt_panics_at_max : isqrt_u128 U128MAX = none := by
  simp [isqrt_u128, U128MAX]

/-- C9 (amended): for every `n` strictly below `u128::MAX`, the Newton
iteration terminates (its iteration variable strictly decreases, which is
the embedding's termination measure) and returns the floor of the real
square root: the unique `r` with `r·r ≤ n < (r+1)·(r+1)`. -/
theorem C9_isqrt_returns_floor_sqrt (n : Nat) (h : n < U128MAX) :
    ∃ r, isqrt_u128 n = some r ∧ r * r ≤ n ∧ n < (r + 1) * (r + 1) :=
  ⟨Nat.sqrt n, isqrt_u128_eq_sqrt n (by omega), Nat.sqrt_le n,
    Nat.lt_succ_sqrt n⟩

/-- C9 witness: the floor square root of 21. -/
theorem C9_isqrt_returns_floor_sqrt_witness :
    (21 : Nat) < U128MAX
    ∧ ∃ r, isqrt_u128 21 = some r ∧ r * r ≤ 21 ∧ 21 < (r + 1) * (r + 1) :=
  ⟨by decide, C9_isqrt_returns_floor_sqrt 21 (by decide)⟩

end Sames
